import Mathlib

/-! Shallow embedding of the authentication and session-lifecycle subsystem of
server.py (apple-mediakey-control), together with proofs about its behaviour.

Modelling conventions:
- timestamps (time.time) are modelled as integers (epoch seconds);
- the Python dict holding sessions is modelled as an association list with
  first-occurrence semantics (Python dicts have unique keys, so on any table
  the program can build the two agree);
- the random source behind secrets.token_hex is an explicit byte-list input;
- disk contents are modelled explicitly, with distinguished states for a
  missing and for an unparsable settings file, and the base64 codec is
  modelled as an injective constructor plus an invalid element;
- the HTTP layer is modelled per request: a request handler is a pure
  function from the shared state (password and session table), the clock and
  the request data to a response and the successor state. -/

namespace MediaKeyControl

abbrev Token := String

abbrev Time := Int

abbrev Table := List (Token × Time)

/-- SESSION_TTL = 30 * 24 * 3600 seconds (30 days), from server.py line 169. -/
def SESSION_TTL : Time := 30 * 24 * 3600

/-- COOKIE_NAME = "mk_session", from server.py line 168. -/
def COOKIE_NAME : String := "mk_session"

/-- Python dict lookup d.get(k): first entry whose key matches. -/
def dget : Table → Token → Option Time
  | [], _ => none
  | p :: rest, k => if p.1 = k then some p.2 else dget rest k

/-- Python dict assignment d[k] = v: replace the entry in place if the key is
present, otherwise append it at the end (dict insertion order). -/
def dset : Table → Token → Time → Table
  | [], k, v => [(k, v)]
  | p :: rest, k, v => if p.1 = k then (k, v) :: rest else p :: dset rest k v

/-- Python dict removal d.pop(k, None): drop the entry with the given key. -/
def dpop : Table → Token → Table
  | [], _ => []
  | p :: rest, k => if p.1 = k then rest else p :: dpop rest k

/-- One lowercase hex digit, as produced by the %x formatting that
secrets.token_hex performs on each nibble: code 48 is the digit zero and
code 87 + 10 is the letter a. -/
def hexDigit (n : Nat) : Char :=
  if n % 16 < 10 then Char.ofNat (48 + n % 16) else Char.ofNat (87 + n % 16)

/-- Hex expansion of a byte list: two digits per byte. -/
def hexChars : List Nat → List Char
  | [] => []
  | b :: rest => hexDigit (b / 16) :: hexDigit b :: hexChars rest

/-- secrets.token_hex applied to an explicit list of random bytes
(token_hex(32) in server.py line 234 passes 32 bytes). -/
def token_hex (bytes : List Nat) : String := String.mk (hexChars bytes)

/-- _valid_session (server.py lines 223-231).  Returns the boolean result
together with the successor table.  Note the Python truthiness test
"if not exp" on a float: an expiry equal to 0 is treated like an absent
entry and is not popped. -/
def valid_session (s : Table) (now : Time) (t : Token) : Bool × Table :=
  match dget s t with
  | none => (false, s)
  | some e =>
    if e = 0 then (false, s)
    else if now > e then (false, dpop s t)
    else (true, dset s t (now + SESSION_TTL))

/-- _new_session (server.py lines 233-237), with the random bytes drawn by
secrets.token_hex made an explicit argument. -/
def new_session (s : Table) (now : Time) (rnd : List Nat) : Token × Table :=
  (token_hex rnd, dset s (token_hex rnd) (now + SESSION_TTL))

/-- The bulk revocation performed by the change-password handler
(server.py lines 843-846): read the caller's expiry, clear the table, and
re-insert the caller if its expiry was truthy. -/
def revoke_all_except (s : Table) (t : Token) : Table :=
  match dget s t with
  | none => []
  | some e => if e = 0 then [] else [(t, e)]

/-- Whitespace as stripped by str.strip in the cookie parser. -/
def isSpaceChar (c : Char) : Bool := c = ' ' || c = '\t' || c = '\n' || c = '\r'

/-- str.split(";") on a character list; like Python it keeps empty pieces and
maps the empty string to a single empty piece. -/
def splitSemi : List Char → List (List Char)
  | [] => [[]]
  | c :: cs =>
    match splitSemi cs with
    | [] => [[]]
    | g :: gs => if c = ';' then [] :: g :: gs else (c :: g) :: gs

/-- str.strip on a character list. -/
def stripChars (l : List Char) : List Char :=
  ((l.dropWhile isSpaceChar).reverse.dropWhile isSpaceChar).reverse

/-- str.startswith on character lists: beginsWith pat l decides whether pat
is an initial segment of l. -/
def beginsWith : List Char → List Char → Bool
  | [], _ => true
  | _ :: _, [] => false
  | p :: ps, c :: cs => p = c && beginsWith ps cs

/-- _get_cookie (server.py lines 239-244): split the Cookie header on
semicolons, strip each part, return the value of the first part starting
with name=, and the empty string when none does (an absent header is the
empty string, headers.get("Cookie", "")). -/
def get_cookie (header : String) (name : String) : String :=
  match ((splitSemi header.data).map stripChars).find?
      (fun part => beginsWith (name.data ++ ['=']) part) with
  | some part => String.mk (part.drop (name.data.length + 1))
  | none => ""

/-- The possible responses of the two request handlers, keeping the redirect
target and the Set-Cookie token where the handlers produce them. -/
inductive Response where
  | serveFavicon
  | serveTouchIcon
  | serveManifest
  | serveSetupPage
  | serveLoginPage
  | serveMainPage
  | serveChangePwPage
  | serveStatus
  | redirect (location : String) (setCookie : Option String)
  | unauthorized401
  | actionOk200
  | unknownAction400
  | notFound404
  deriving DecidableEq

/-- The process-wide mutable state: _password and _sessions. -/
structure ServerState where
  password : String
  sessions : Table
  deriving DecidableEq

/-- _is_authed (server.py lines 246-247): validate the token carried by the
mk_session cookie; returns the check together with the successor table. -/
def is_authed (st : ServerState) (now : Time) (cookieHeader : String) : Bool × Table :=
  valid_session st.sessions now (get_cookie cookieHeader COOKIE_NAME)

/-- do_GET (server.py lines 692-782).  Static assets are answered before any
auth consideration; with no password configured everything else is the setup
flow; then login, logout, the auth gate, and the authenticated routes. -/
def do_GET (st : ServerState) (now : Time) (path : String) (cookieHeader : String) :
    Response × ServerState :=
  if path = "/favicon.ico" ∨ path = "/favicon.png" then (.serveFavicon, st)
  else if path = "/apple-touch-icon.png" then (.serveTouchIcon, st)
  else if path = "/manifest.json" then (.serveManifest, st)
  else if st.password = "" then
    if path ≠ "/setup" then (.redirect "/setup" none, st) else (.serveSetupPage, st)
  else if path = "/login" then (.serveLoginPage, st)
  else if path = "/logout" then
    (.redirect "/login" (some ""),
      { st with sessions := dpop st.sessions (get_cookie cookieHeader COOKIE_NAME) })
  else
    let v := is_authed st now cookieHeader
    let st2 : ServerState := { st with sessions := v.2 }
    if !v.1 then (.redirect "/login" none, st2)
    else if path = "/" ∨ path = "/index.html" then (.serveMainPage, st2)
    else if path = "/change-password" then (.serveChangePwPage, st2)
    else if path = "/status" then (.serveStatus, st2)
    else (.notFound404, st2)

/-- A parsed POST request: the path, the Cookie header, the form fields read
through p("cur"), p("pw"), p("pw2") (absent fields read as the empty string)
and the action name from the JSON body of /action. -/
structure PostReq where
  path : String
  cookieHeader : String
  cur : String
  pw : String
  pw2 : String
  action : String

/-- The keys of the _ACTIONS dispatch table (server.py lines 133-150). -/
def knownActions : List String :=
  ["volume_up", "volume_down", "mute",
   "brightness_down", "brightness_up", "prev_track", "play_pause", "next_track",
   "kbd_bright_up", "kbd_bright_down", "mission_control", "launchpad"]

/-- The change-password branch of _do_post (server.py lines 834-850), entered
only behind the auth gate: check the current password, then emptiness, then
length, then the confirmation; on success revoke every session but the
caller's and store the new password. -/
def change_password_post (st : ServerState) (r : PostReq) : Response × ServerState :=
  if r.cur ≠ st.password then (.redirect "/change-password?error=wrong" none, st)
  else if r.pw = "" then (.redirect "/change-password?error=empty" none, st)
  else if r.pw.length < 4 then (.redirect "/change-password?error=short" none, st)
  else if r.pw ≠ r.pw2 then (.redirect "/change-password?error=mismatch" none, st)
  else
    (.redirect "/change-password?success=1" none,
      { password := r.pw,
        sessions := revoke_all_except st.sessions (get_cookie r.cookieHeader COOKIE_NAME) })

/-- _do_post (server.py lines 797-866): first-run setup, login, the auth
gate, then change-password and the action dispatch. -/
def do_POST (st : ServerState) (now : Time) (r : PostReq) (rnd : List Nat) :
    Response × ServerState :=
  if r.path = "/setup" then
    if st.password ≠ "" then (.redirect "/" none, st)
    else if r.pw = "" then (.redirect "/setup?error=empty" none, st)
    else if r.pw ≠ r.pw2 then (.redirect "/setup?error=mismatch" none, st)
    else if r.pw.length < 4 then (.redirect "/setup?error=short" none, st)
    else
      let ns := new_session st.sessions now rnd
      (.redirect "/" (some ns.1), { password := r.pw, sessions := ns.2 })
  else if r.path = "/login" then
    if st.password ≠ "" ∧ r.pw = st.password then
      let ns := new_session st.sessions now rnd
      (.redirect "/" (some ns.1), { st with sessions := ns.2 })
    else (.redirect "/login?error=wrong" none, st)
  else
    let v := is_authed st now r.cookieHeader
    let st2 : ServerState := { st with sessions := v.2 }
    if !v.1 then (.unauthorized401, st2)
    else if r.path = "/change-password" then change_password_post st2 r
    else if r.path = "/action" then
      (if knownActions.contains r.action then .actionOk200 else .unknownAction400, st2)
    else (.notFound404, st2)

/-- The base-64 codec at rest, modelled as an injective constructor together
with an invalid element on which decoding raises. -/
inductive B64 where
  | enc (s : String)
  | invalid
  deriving DecidableEq

/-- base64.b64decode followed by decode, as an option. -/
def b64decode : B64 → Option String
  | .enc s => some s
  | .invalid => none

/-- The persisted aggregate: the password_b64 key (absent or a base-64
value) and the sessions map. -/
structure SettingsBlob where
  password_b64 : Option B64
  sessions : Table
  deriving DecidableEq

/-- The blob an absent or unreadable settings file loads as. -/
def emptySettings : SettingsBlob := { password_b64 := none, sessions := [] }

/-- The on-disk settings file: missing, unparsable, or a parsed blob. -/
inductive DiskState where
  | missing
  | corrupt
  | good (blob : SettingsBlob)
  deriving DecidableEq

/-- _load_settings (server.py lines 174-181): a missing file and any raised
parse error both yield the empty dict. -/
def load_settings : DiskState → SettingsBlob
  | .missing => emptySettings
  | .corrupt => emptySettings
  | .good b => b

/-- _save_sessions_to_disk (server.py lines 200-204): reload the blob from
disk, overwrite its sessions key with the in-memory table filtered to
entries whose expiry is strictly in the future, and save. -/
def save_sessions_to_disk (disk : DiskState) (mem : Table) (now : Time) : DiskState :=
  let s := load_settings disk
  .good { s with sessions := mem.filter (fun p => decide (p.2 > now)) }

/-- The disk effect of _save_password (server.py lines 188-193): reload the
blob from disk, overwrite only the password_b64 key, and save.  Whatever
sessions key the blob already had on disk is written back untouched. -/
def save_password_to_disk (disk : DiskState) (pw : String) : DiskState :=
  let s := load_settings disk
  .good { s with password_b64 := some (B64.enc pw) }

/-- The sessions map stored in a disk state. -/
def persisted_sessions (disk : DiskState) : Table := (load_settings disk).sessions

/-- _load_sessions_from_disk (server.py lines 195-198). -/
def load_sessions_from_disk (disk : DiskState) (now : Time) : Table :=
  (load_settings disk).sessions.filter (fun p => decide (p.2 > now))

/-- _setup_auth (server.py lines 206-221): decode the stored password (an
absent key or a failing decode leaves it empty) and restore the unexpired
sessions. -/
def setup_auth (disk : DiskState) (now : Time) : ServerState :=
  { password :=
      match (load_settings disk).password_b64 with
      | none => ""
      | some b =>
        match b64decode b with
        | some p => p
        | none => ""
    sessions := load_sessions_from_disk disk now }

/-- The file-system operations _save_settings can issue, for stating how the
settings file is written. -/
inductive FsOp where
  | mkdirParents (dir : String)
  | writeFile (path : String) (blob : SettingsBlob)
  | renameFile (src dst : String)
  deriving DecidableEq

/-- APP_SUPPORT directory path (server.py line 166). -/
def APP_SUPPORT : String := "~/Library/Application Support/MediaKeyControl"

/-- SETTINGS_FILE path (server.py line 167). -/
def SETTINGS_FILE : String := "~/Library/Application Support/MediaKeyControl/settings.plist"

/-- _save_settings (server.py lines 183-186) as the sequence of file-system
operations it performs: create the directory, then dump the blob straight
into the destination file. -/
def save_settings_trace (data : SettingsBlob) : List FsOp :=
  [FsOp.mkdirParents APP_SUPPORT, FsOp.writeFile SETTINGS_FILE data]

/-- Whether an operation is a rename. -/
def isRenameOp : FsOp → Bool
  | .renameFile _ _ => true
  | _ => false

/-- The atomic-replace write pattern asserted by the specification: the blob
is written to some temporary path distinct from the destination and that
temporary file is then renamed over the destination. -/
def atomicReplaceClaim (data : SettingsBlob) : Prop :=
  ∃ tmp, tmp ≠ SETTINGS_FILE ∧
    FsOp.writeFile tmp data ∈ save_settings_trace data ∧
    FsOp.renameFile tmp SETTINGS_FILE ∈ save_settings_trace data

/-- The sequence of session-table mutations the request handlers can
perform, for stating state-machine properties of a token. -/
inductive SessionOp where
  | createOp (rnd : List Nat) (now : Time)
  | validateOp (tok : Token) (now : Time)
  | revokeOp (tok : Token)
  | revokeAllExceptOp (tok : Token)

/-- The effect of one session operation on the table. -/
def applyOp (s : Table) : SessionOp → Table
  | .createOp rnd now => (new_session s now rnd).2
  | .validateOp tok now => (valid_session s now tok).2
  | .revokeOp tok => dpop s tok
  | .revokeAllExceptOp tok => revoke_all_except s tok

/-- Run a sequence of session operations. -/
def runOps (s : Table) (ops : List SessionOp) : Table := ops.foldl applyOp s

/-- Whether an operation can only mint tokens different from t: every create
draws a token different from t (the claim's collision-free random source),
and the remaining operations mint nothing. -/
def avoidsToken (t : Token) : SessionOp → Bool
  | .createOp rnd _ => token_hex rnd != t
  | _ => true

/-- A table with pairwise distinct keys, as every Python dict has. -/
abbrev nodupKeys (s : Table) : Prop := (s.map Prod.fst).Nodup

/-- The persistence invariant asserted by the specification: every persisted
entry is an entry of the in-memory table that is unexpired at the write. -/
abbrev liveSubset (written mem : Table) (now : Time) : Prop :=
  ∀ p ∈ written, p ∈ mem ∧ now < p.2

/-- Membership in the sixteen lowercase hex digits, by character code:
the decimal digits are codes 48 to 57 and the letters a to f are codes 97
to 102. -/
def isHexDigitChar (c : Char) : Bool :=
  (48 ≤ c.toNat && c.toNat ≤ 57) || (97 ≤ c.toNat && c.toNat ≤ 102)

/-- Lookup misses exactly when no entry has the key. -/
theorem dget_eq_none_iff (s : Table) (t : Token) :
    dget s t = none ↔ ∀ p ∈ s, p.1 ≠ t := by
  induction s with
  | nil => simp [dget]
  | cons p rest ih =>
    by_cases h : p.1 = t
    · simp [dget, h]
    · simp [dget, h, ih]

/-- A successful lookup exhibits a member of the table. -/
theorem dget_some_mem {s : Table} {t : Token} {e : Time} (h : dget s t = some e) :
    (t, e) ∈ s := by
  induction s with
  | nil => simp [dget] at h
  | cons p rest ih =>
    obtain ⟨a, b⟩ := p
    by_cases hp : a = t
    · simp [dget, hp] at h
      simp [hp, h]
    · simp [dget, hp] at h
      exact List.mem_cons_of_mem _ (ih h)

/-- Updating a key makes it look up to the new value. -/
theorem dget_dset_self (s : Table) (k : Token) (v : Time) :
    dget (dset s k v) k = some v := by
  induction s with
  | nil => simp [dget, dset]
  | cons q rest ih =>
    by_cases hq : q.1 = k
    · simp [dset, hq, dget]
    · simp [dset, hq, dget, ih]

/-- Every entry of an updated table was an entry before or is the update. -/
theorem mem_dset {s : Table} {k : Token} {v : Time} {p : Token × Time}
    (h : p ∈ dset s k v) : p ∈ s ∨ p = (k, v) := by
  induction s with
  | nil =>
    simp [dset] at h
    simp [h]
  | cons q rest ih =>
    by_cases hq : q.1 = k
    · simp [dset, hq] at h
      rcases h with h | h
      · right; exact h
      · left; exact List.mem_cons_of_mem _ h
    · simp [dset, hq] at h
      rcases h with h | h
      · left; simp [h]
      · rcases ih h with h2 | h2
        · left; exact List.mem_cons_of_mem _ h2
        · right; exact h2

/-- Removal never adds entries. -/
theorem mem_dpop {s : Table} {k : Token} {p : Token × Time}
    (h : p ∈ dpop s k) : p ∈ s := by
  induction s with
  | nil => simp [dpop] at h
  | cons q rest ih =>
    by_cases hq : q.1 = k
    · simp [dpop, hq] at h
      exact List.mem_cons_of_mem _ h
    · simp [dpop, hq] at h
      rcases h with h | h
      · simp [h]
      · exact List.mem_cons_of_mem _ (ih h)

/-- On a duplicate-free table, removal eliminates the key entirely. -/
theorem not_key_dpop {s : Table} (t : Token) (h : nodupKeys s) :
    ∀ p ∈ dpop s t, p.1 ≠ t := by
  induction s with
  | nil => simp [dpop]
  | cons q rest ih =>
    rw [nodupKeys, List.map_cons, List.nodup_cons] at h
    by_cases hq : q.1 = t
    · intro p hp
      rw [dpop, if_pos hq] at hp
      intro hpt
      apply h.1
      have hm : p.1 ∈ List.map Prod.fst rest := List.mem_map_of_mem Prod.fst hp
      rw [hq, ← hpt]
      exact hm
    · intro p hp
      rw [dpop, if_neg hq] at hp
      rcases List.mem_cons.mp hp with h2 | h2
      · rw [h2]; exact hq
      · exact ih h.2 p h2

/-- The bulk revocation only keeps an entry of the old table, keyed by the
excepted token. -/
theorem mem_revoke_all_except {s : Table} {t : Token} {p : Token × Time}
    (h : p ∈ revoke_all_except s t) : p ∈ s ∧ p.1 = t := by
  rcases hd : dget s t with _ | e
  · rw [revoke_all_except, hd] at h
    simp at h
  · rw [revoke_all_except, hd] at h
    by_cases he : e = 0
    · simp [he] at h
    · simp [he] at h
      exact ⟨by rw [h]; exact dget_some_mem hd, by rw [h]⟩

/-- Validating a token absent from the table fails and leaves the table
untouched. -/
theorem valid_session_absent {s : Table} {t : Token} (now : Time)
    (h : ∀ p ∈ s, p.1 ≠ t) : valid_session s now t = (false, s) := by
  have hd : dget s t = none := (dget_eq_none_iff s t).mpr h
  simp [valid_session, hd]

/-- No session operation that avoids the token t introduces an entry for t. -/
theorem not_key_applyOp {s : Table} {t : Token} {op : SessionOp}
    (hs : ∀ p ∈ s, p.1 ≠ t) (hop : avoidsToken t op = true) :
    ∀ p ∈ applyOp s op, p.1 ≠ t := by
  cases op with
  | createOp rnd now =>
    have htok : token_hex rnd ≠ t := by
      simpa [avoidsToken] using hop
    intro p hp
    rcases mem_dset (by simpa [applyOp, new_session] using hp) with h2 | h2
    · exact hs p h2
    · rw [h2]; exact htok
  | validateOp tok now =>
    rcases hd : dget s tok with _ | e
    · simpa [applyOp, valid_session, hd] using hs
    · have htokt : tok ≠ t := hs (tok, e) (dget_some_mem hd)
      intro p hp
      rw [applyOp, valid_session, hd] at hp
      by_cases he : e = 0
      · simp [he] at hp
        exact hs p hp
      · by_cases hn : now > e
        · simp [he, hn] at hp
          exact hs p (mem_dpop hp)
        · simp [he, hn] at hp
          rcases mem_dset hp with h2 | h2
          · exact hs p h2
          · rw [h2]; exact htokt
  | revokeOp tok =>
    intro p hp
    exact hs p (mem_dpop hp)
  | revokeAllExceptOp tok =>
    intro p hp
    exact hs p (mem_revoke_all_except hp).1

/-- Running any sequence of avoiding operations keeps t out of the table. -/
theorem not_key_runOps {t : Token} (ops : List SessionOp) :
    ∀ s : Table, (∀ p ∈ s, p.1 ≠ t) →
      (∀ op ∈ ops, avoidsToken t op = true) →
      ∀ p ∈ runOps s ops, p.1 ≠ t := by
  induction ops with
  | nil =>
    intro s hs _
    simpa [runOps] using hs
  | cons op rest ih =>
    intro s hs hops
    have h1 : ∀ p ∈ applyOp s op, p.1 ≠ t :=
      not_key_applyOp hs (hops op (List.mem_cons_self op rest))
    have h2 : ∀ o ∈ rest, avoidsToken t o = true :=
      fun o ho => hops o (List.mem_cons_of_mem op ho)
    simpa [runOps] using ih (applyOp s op) h1 h2

/-- Hex expansion doubles the length. -/
theorem hexChars_length (bytes : List Nat) : (hexChars bytes).length = 2 * bytes.length := by
  induction bytes with
  | nil => simp [hexChars]
  | cons b rest ih =>
    simp [hexChars, ih]
    ring

/-- Every produced digit is a lowercase hex digit. -/
theorem isHexDigitChar_hexDigit (n : Nat) : isHexDigitChar (hexDigit n) = true := by
  rw [hexDigit]
  have h : n % 16 < 16 := Nat.mod_lt _ (by norm_num)
  set m := n % 16 with hm
  interval_cases m <;> decide

/-- All characters of a hex expansion are hex digits. -/
theorem hexChars_all_hex (bytes : List Nat) :
    ∀ c ∈ hexChars bytes, isHexDigitChar c = true := by
  induction bytes with
  | nil => simp [hexChars]
  | cons b rest ih =>
    intro c hc
    rcases List.mem_cons.mp hc with h | h
    · rw [h]; exact isHexDigitChar_hexDigit _
    · rcases List.mem_cons.mp h with h2 | h2
      · rw [h2]; exact isHexDigitChar_hexDigit _
      · exact ih c h2

/-- C1 counterexample: the claim is false as stated over arbitrary tables.
With the table holding t at expiry 0 and now = 1 the token is present and
now exceeds its expiry, yet Validate returns false without removing the
stale entry (the Python truthiness test fires before the pop); and with the
table holding u at expiry 1000000000 and now = 1 a successful Validate
rewrites the expiry to now + TTL = 2592001, moving it backward. -/
theorem validate_stale_zero_and_backslide_counterexample :
    (valid_session [("t", 0)] 1 "t" = (false, [("t", 0)]) ∧
      dget [("t", (0 : Time))] "t" = some 0 ∧ (1 : Time) > 0) ∧
    (valid_session [("u", 1000000000)] 1 "u" = (true, [("u", 2592001)]) ∧
      (2592001 : Time) < 1000000000) := by
  decide

/-- C1 amended: on a duplicate-free table whose entries all carry a positive
expiry (as holds for every table the program builds), Validate returns
false when the token is absent, leaving the table unchanged; returns false
when now exceeds the expiry and removes the stale entry; otherwise returns
true and sets that token's expiry to exactly now + TTL; and the stored
expiry never moves backward provided the old expiry was at most now + TTL,
as holds for every entry written at an earlier instant. -/
theorem validate_sliding_spec (s : Table) (now : Time) (t : Token)
    (hnd : nodupKeys s) (hpos : ∀ p ∈ s, 0 < p.2) :
    (dget s t = none → valid_session s now t = (false, s)) ∧
    (∀ e, dget s t = some e → now > e → valid_session s now t = (false, dpop s t)) ∧
    (∀ e, dget s t = some e → ¬ now > e →
      valid_session s now t = (true, dset s t (now + SESSION_TTL))) ∧
    (∀ e el, dget s t = some e → e ≤ now + SESSION_TTL →
      dget (valid_session s now t).2 t = some el → e ≤ el) := by
  have hne : ∀ e, dget s t = some e → e ≠ 0 := fun e hd =>
    ne_of_gt (hpos (t, e) (dget_some_mem hd))
  refine ⟨?_, ?_, ?_, ?_⟩
  · intro h
    simp [valid_session, h]
  · intro e hd hn
    simp [valid_session, hd, hne e hd, hn]
  · intro e hd hn
    simp [valid_session, hd, hne e hd, hn]
  · intro e el hd hle hel
    by_cases hn : now > e
    · simp [valid_session, hd, hne e hd, hn] at hel
      have habs : dget (dpop s t) t = none :=
        (dget_eq_none_iff (dpop s t) t).mpr (not_key_dpop t hnd)
      rw [habs] at hel
      exact Option.noConfusion hel
    · have h2 : (valid_session s now t).2 = dset s t (now + SESSION_TTL) := by
        simp [valid_session, hd, hne e hd, hn]
      rw [h2, dget_dset_self] at hel
      injection hel with h3
      rw [← h3]
      exact hle

/-- C1 witness: the amended theorem applied to the one-entry table holding
a at expiry 100, at now = 50. -/
theorem validate_sliding_spec_witness :
    nodupKeys [(("a" : Token), (100 : Time))] ∧
    (∀ p ∈ [(("a" : Token), (100 : Time))], 0 < p.2) ∧
    valid_session [("a", 100)] 50 "a" = (true, dset [("a", 100)] "a" (50 + SESSION_TTL)) :=
  ⟨by decide, by decide,
    (validate_sliding_spec [("a", 100)] 50 "a" (by decide) (by decide)).2.2.1 100
      (by decide) (by decide)⟩

/-- C2: from a state with password pwd and sessions containing valid tokens
a and b, an authenticated change-password POST from session a with the
correct current password and a valid, confirmed new password leaves exactly
the one entry for a (at its current, just-slid expiry) in the table, so b
subsequently fails Validate while a still succeeds; and the bulk revocation
applied to an absent token leaves zero entries. -/
theorem change_password_revokes_all_but_caller
    (pwd : String) (s : Table) (now : Time) (hdr a b npw cur pw2 act : String)
    (rnd : List Nat) (eA eB : Time)
    (hpwd : pwd ≠ "") (hnow : 0 ≤ now)
    (hck : get_cookie hdr COOKIE_NAME = a)
    (hA : dget s a = some eA) (hApos : 0 < eA) (hAlive : now ≤ eA)
    (hB : dget s b = some eB) (hBpos : 0 < eB) (hBlive : now ≤ eB)
    (hba : b ≠ a)
    (hcur : cur = pwd) (hnpw : npw ≠ "") (hlen : 4 ≤ npw.length) (hpw2 : pw2 = npw) :
    do_POST ⟨pwd, s⟩ now ⟨"/change-password", hdr, cur, npw, pw2, act⟩ rnd
        = (.redirect "/change-password?success=1" none, ⟨npw, [(a, now + SESSION_TTL)]⟩) ∧
    [(a, now + SESSION_TTL)].length = 1 ∧
    (valid_session [(a, now + SESSION_TTL)] now b).1 = false ∧
    (valid_session [(a, now + SESSION_TTL)] now a).1 = true ∧
    (∀ s2 t2, dget s2 t2 = none → revoke_all_except s2 t2 = []) := by
  have hvs : valid_session s now a = (true, dset s a (now + SESSION_TTL)) := by
    simp [valid_session, hA, ne_of_gt hApos, not_lt.mpr hAlive]
  have hz : ¬ now + SESSION_TTL = 0 := by rw [SESSION_TTL]; linarith
  have hrae : revoke_all_except (dset s a (now + SESSION_TTL)) a
      = [(a, now + SESSION_TTL)] := by
    simp [revoke_all_except, dget_dset_self, hz]
  refine ⟨?_, rfl, ?_, ?_, ?_⟩
  · simp [do_POST, is_authed, hck, hvs, change_password_post, hcur, hnpw,
      Nat.not_lt.mpr hlen, hpw2, hrae]
  · simp [valid_session, dget, Ne.symm hba]
  · have hfut : ¬ now > now + SESSION_TTL := by rw [SESSION_TTL]; linarith
    simp [valid_session, dget, hz, hfut]
  · intro s2 t2 h
    rw [revoke_all_except, h]

/-- C2 witness: the theorem applied to password abcd, table holding A and B,
time 10, and new password wxyz. -/
theorem change_password_revokes_all_but_caller_witness :
    dget [(("A" : Token), (100 : Time)), ("B", 90)] "A" = some 100 ∧
    dget [(("A" : Token), (100 : Time)), ("B", 90)] "B" = some 90 ∧
    get_cookie "mk_session=A" COOKIE_NAME = "A" ∧
    do_POST ⟨"abcd", [("A", 100), ("B", 90)]⟩ 10
        ⟨"/change-password", "mk_session=A", "abcd", "wxyz", "wxyz", ""⟩ []
      = (.redirect "/change-password?success=1" none, ⟨"wxyz", [("A", 10 + SESSION_TTL)]⟩) :=
  ⟨by decide, by decide, by decide,
    (change_password_revokes_all_but_caller "abcd" [("A", 100), ("B", 90)] 10
      "mk_session=A" "A" "B" "wxyz" "abcd" "wxyz" "" [] 100 90
      (by decide) (by decide) (by decide) (by decide) (by decide) (by decide)
      (by decide) (by decide) (by decide) (by decide)
      (by decide) (by decide) (by decide) (by decide)).1⟩

/-- C3 counterexample: the claim is false on the code.  The write trace of
_save_settings contains no rename of a temporary file over the destination:
it writes the blob straight into the settings file. -/
theorem save_settings_no_atomic_rename : ¬ atomicReplaceClaim emptySettings := by
  rintro ⟨tmp, hne, hw, hr⟩
  simp [save_settings_trace] at hr

/-- C3 amended: Save(blob) creates the destination directory (with parents)
if absent and then writes the full blob directly to the settings file, with
no temporary file, no flush-then-rename step, and hence no crash-mid-write
atomicity. -/
theorem save_settings_direct_write (data : SettingsBlob) :
    save_settings_trace data
        = [FsOp.mkdirParents APP_SUPPORT, FsOp.writeFile SETTINGS_FILE data] ∧
    (save_settings_trace data).all (fun op => !isRenameOp op) = true :=
  ⟨rfl, rfl⟩

/-- C4 counterexample: the claim is false as stated.  In the unconfigured
state a GET for the favicon is served rather than redirected to the setup
view, and a POST to the login path is redirected to the login view, not the
setup view. -/
theorem unconfigured_assets_counterexample :
    do_GET ⟨"", []⟩ 0 "/favicon.ico" "" = (.serveFavicon, ⟨"", []⟩) ∧
    Response.serveFavicon ≠ Response.redirect "/setup" none ∧
    do_POST ⟨"", []⟩ 0 ⟨"/login", "", "", "pw", "", ""⟩ []
        = (.redirect "/login?error=wrong" none, ⟨"", []⟩) ∧
    ("/login?error=wrong" : String) ≠ "/setup" := by
  decide

/-- C4 amended: while no credential is configured, the four public asset
paths are served exactly as in every other state; every other GET path
except the setup view is redirected to the setup view and the setup view
renders; a setup submission is accepted (validated, storing the credential
and creating a session on success); a login submission is rejected with a
redirect to the login view; and any other POST whose cookie does not
validate is rejected as unauthorized. -/
theorem unconfigured_routing (s : Table) (now : Time) (ck : String) :
    (do_GET ⟨"", s⟩ now "/favicon.ico" ck = (.serveFavicon, ⟨"", s⟩)) ∧
    (do_GET ⟨"", s⟩ now "/favicon.png" ck = (.serveFavicon, ⟨"", s⟩)) ∧
    (do_GET ⟨"", s⟩ now "/apple-touch-icon.png" ck = (.serveTouchIcon, ⟨"", s⟩)) ∧
    (do_GET ⟨"", s⟩ now "/manifest.json" ck = (.serveManifest, ⟨"", s⟩)) ∧
    (∀ path, path ≠ "/favicon.ico" → path ≠ "/favicon.png" →
      path ≠ "/apple-touch-icon.png" → path ≠ "/manifest.json" → path ≠ "/setup" →
      do_GET ⟨"", s⟩ now path ck = (.redirect "/setup" none, ⟨"", s⟩)) ∧
    (do_GET ⟨"", s⟩ now "/setup" ck = (.serveSetupPage, ⟨"", s⟩)) ∧
    (∀ r rnd, r.path = "/login" →
      do_POST ⟨"", s⟩ now r rnd = (.redirect "/login?error=wrong" none, ⟨"", s⟩)) ∧
    (∀ r rnd, r.path = "/setup" → r.pw ≠ "" → r.pw = r.pw2 → 4 ≤ r.pw.length →
      do_POST ⟨"", s⟩ now r rnd = (.redirect "/" (some (token_hex rnd)),
        ⟨r.pw, dset s (token_hex rnd) (now + SESSION_TTL)⟩)) ∧
    (∀ r rnd, r.path ≠ "/setup" → r.path ≠ "/login" →
      (valid_session s now (get_cookie r.cookieHeader COOKIE_NAME)).1 = false →
      (do_POST ⟨"", s⟩ now r rnd).1 = Response.unauthorized401) := by
  refine ⟨by simp [do_GET], by simp [do_GET], by simp [do_GET], by simp [do_GET],
    ?_, by simp [do_GET], ?_, ?_, ?_⟩
  · intro path h1 h2 h3 h4 h5
    simp [do_GET, h1, h2, h3, h4, h5]
  · intro r rnd hp
    simp [do_POST, hp]
  · intro r rnd hp hpw hpw2 hlen
    simp [do_POST, new_session, hp, hpw, ← hpw2, Nat.not_lt.mpr hlen]
  · intro r rnd h1 h2 hv
    simp [do_POST, is_authed, h1, h2, hv]

/-- C4 witness: the amended theorem applied to the empty table at time 0,
showing the home path redirecting to setup while the favicon is served. -/
theorem unconfigured_routing_witness :
    (("/" : String) ≠ "/favicon.ico") ∧
    do_GET ⟨"", []⟩ 0 "/" "" = (.redirect "/setup" none, ⟨"", []⟩) :=
  ⟨by decide,
    (unconfigured_routing [] 0 "").2.2.2.2.1 "/"
      (by decide) (by decide) (by decide) (by decide) (by decide)⟩

/-- C5: once the token t is out of the table, whether because logout popped
it or because a validation detected its expiry and removed it, every later
sequence of session operations whose creations mint tokens different from t
(the collision-free random source) keeps t out, and Validate of t returns
false at every later instant. -/
theorem revoked_token_never_validates (s0 : Table) (t : Token)
    (ops : List SessionOp) (now0 : Time)
    (hnd : nodupKeys s0)
    (hfresh : ∀ op ∈ ops, avoidsToken t op = true) :
    (∀ now, (valid_session (runOps (dpop s0 t) ops) now t).1 = false) ∧
    (∀ e, dget s0 t = some e → e ≠ 0 → now0 > e →
      ∀ now, (valid_session (runOps ((valid_session s0 now0 t).2) ops) now t).1 = false) := by
  have h0 : ∀ p ∈ dpop s0 t, p.1 ≠ t := not_key_dpop t hnd
  have h1 := not_key_runOps ops (dpop s0 t) h0 hfresh
  constructor
  · intro now
    rw [valid_session_absent now h1]
  · intro e hd he hn now
    have hres : (valid_session s0 now0 t).2 = dpop s0 t := by
      simp [valid_session, hd, he, hn]
    rw [hres, valid_session_absent now h1]

/-- C5 witness: the theorem applied to a table holding t and u, with a
later creation, a validation of u and a bulk revocation keeping u. -/
theorem revoked_token_never_validates_witness :
    nodupKeys [(("t" : Token), (5 : Time)), ("u", 100)] ∧
    (valid_session
      (runOps (dpop [(("t" : Token), (5 : Time)), ("u", 100)] "t")
        [SessionOp.createOp (List.replicate 32 0) 6, SessionOp.validateOp "u" 7,
         SessionOp.revokeAllExceptOp "u"]) 8 "t").1 = false :=
  ⟨by decide,
    (revoked_token_never_validates [("t", 5), ("u", 100)] "t"
      [SessionOp.createOp (List.replicate 32 0) 6, SessionOp.validateOp "u" 7,
       SessionOp.revokeAllExceptOp "u"] 6 (by decide) (by decide)).1 8⟩

/-- C6 counterexample: the claim is false over the writes of _save_password,
which copies whatever sessions the blob on disk already had back to disk
untouched: with the disk holding an entry expired at 5, a password write at
time 10 persists that entry although it is expired and absent from the
in-memory table (and it would be expired even if still in memory). -/
theorem save_password_persists_stale_sessions :
    persisted_sessions (save_password_to_disk (.good ⟨none, [("t", 5)]⟩) "abcd")
        = [("t", 5)] ∧
    ¬ liveSubset [("t", 5)] [] 10 ∧
    ¬ liveSubset [("t", 5)] [("t", 5)] 10 := by
  decide

/-- C6 amended: every write performed by _save_sessions_to_disk persists a
subset of the in-memory table filtered to unexpired entries at the time of
the write, and a token all of whose entries are expired, such as one
created at T0 and never reused once past T0 + TTL, is absent from the blob
such a save persists (writes that go through _save_password instead copy
the previously persisted sessions unchanged). -/
theorem save_sessions_live_subset (disk : DiskState) (mem : Table) (now : Time) :
    liveSubset (persisted_sessions (save_sessions_to_disk disk mem now)) mem now ∧
    (∀ t, (∀ q ∈ mem, q.1 = t → q.2 ≤ now) →
      ∀ p ∈ persisted_sessions (save_sessions_to_disk disk mem now), p.1 ≠ t) := by
  have hps : persisted_sessions (save_sessions_to_disk disk mem now)
      = mem.filter (fun p => decide (p.2 > now)) := rfl
  constructor
  · intro p hp
    rw [hps] at hp
    have h2 := List.mem_filter.mp hp
    exact ⟨h2.1, of_decide_eq_true h2.2⟩
  · intro t ht p hp
    rw [hps] at hp
    have h2 := List.mem_filter.mp hp
    intro hpt
    have hle : p.2 ≤ now := ht p h2.1 hpt
    have hgt : now < p.2 := of_decide_eq_true h2.2
    linarith

/-- C6 witness: the amended theorem applied to a memory table whose only
entry for t expired at 5, saved at time 10: the persisted blob has no entry
for t. -/
theorem save_sessions_live_subset_witness :
    (("t" : Token), (5 : Time)) ∉
      persisted_sessions (save_sessions_to_disk DiskState.missing [("t", 5)] 10) :=
  fun hp =>
    (save_sessions_live_subset DiskState.missing [("t", 5)] 10).2 "t"
      (by decide) ("t", 5) hp rfl

/-- C7 counterexample: the claim is false on the code.  With the correct
current password, an empty new password and a non-matching confirmation,
the claim demands the Mismatch error, but the handler tests emptiness
before the confirmation and reports the empty-credential error. -/
theorem change_password_error_order_counterexample :
    do_POST ⟨"abcd", [("A", 100)]⟩ 10
        ⟨"/change-password", "mk_session=A", "abcd", "", "x", ""⟩ []
      = (.redirect "/change-password?error=empty" none, ⟨"abcd", [("A", 2592010)]⟩) ∧
    ("" : String) ≠ "x" ∧
    Response.redirect "/change-password?error=empty" none
        ≠ Response.redirect "/change-password?error=mismatch" none := by
  decide

/-- C7 amended: the change-password handler fails with WrongCredential when
the current password does not match; with the correct current password it
fails with EmptyCredential when the new password is empty, then with
CredentialTooShort when it is shorter than 4 characters, and only then with
Mismatch when the confirmation differs — the precedence is wrong, empty,
short, mismatch. -/
theorem change_password_error_precedence (st : ServerState) (r : PostReq) :
    (r.cur ≠ st.password →
      change_password_post st r = (.redirect "/change-password?error=wrong" none, st)) ∧
    (r.cur = st.password → r.pw = "" →
      change_password_post st r = (.redirect "/change-password?error=empty" none, st)) ∧
    (r.cur = st.password → r.pw ≠ "" → r.pw.length < 4 →
      change_password_post st r = (.redirect "/change-password?error=short" none, st)) ∧
    (r.cur = st.password → r.pw ≠ "" → 4 ≤ r.pw.length → r.pw ≠ r.pw2 →
      change_password_post st r = (.redirect "/change-password?error=mismatch" none, st)) := by
  refine ⟨?_, ?_, ?_, ?_⟩
  · intro h1
    simp [change_password_post, h1]
  · intro h1 h2
    simp [change_password_post, h1, h2]
  · intro h1 h2 h3
    simp [change_password_post, h1, h2, h3]
  · intro h1 h2 h3 h4
    simp [change_password_post, h1, h2, Nat.not_lt.mpr h3, h4]

/-- C7 witness: the amended theorem applied to a wrong current password. -/
theorem change_password_error_precedence_witness :
    (("zz" : String) ≠ "abcd") ∧
    change_password_post ⟨"abcd", []⟩ ⟨"/change-password", "", "zz", "xxxx", "xxxx", ""⟩
      = (.redirect "/change-password?error=wrong" none, ⟨"abcd", []⟩) :=
  ⟨by decide,
    (change_password_error_precedence ⟨"abcd", []⟩
      ⟨"/change-password", "", "zz", "xxxx", "xxxx", ""⟩).1 (by decide)⟩

/-- C8: loading fails soft.  A missing or unparsable settings file loads as
the empty blob; startup over such a disk, and over a blob whose stored
password fails to decode, leaves the service unconfigured with no sessions
(restoring only unexpired sessions otherwise); and in that state the home
path shows first-run behaviour, redirecting to the setup view. -/
theorem load_settings_fails_soft :
    load_settings .missing = emptySettings ∧
    load_settings .corrupt = emptySettings ∧
    (∀ now, setup_auth .missing now = ⟨"", []⟩) ∧
    (∀ now, setup_auth .corrupt now = ⟨"", []⟩) ∧
    (∀ now sess, setup_auth (.good ⟨some B64.invalid, sess⟩) now
        = ⟨"", sess.filter (fun p => decide (p.2 > now))⟩) ∧
    (∀ now ck, do_GET (setup_auth .corrupt now) now "/" ck
        = (.redirect "/setup" none, setup_auth .corrupt now)) :=
  ⟨rfl, rfl, fun _ => rfl, fun _ => rfl, fun _ _ => rfl, fun _ _ => rfl⟩

/-- C9 counterexample: the claim is false as stated over whole requests.  An
authenticated change-password POST that takes the wrong-current-password
branch still mutates the session table: the auth gate slid the caller's
expiry from 100 to now + TTL = 2592010 before the branch ran. -/
theorem change_password_error_slides_expiry :
    do_POST ⟨"abcd", [("A", 100)]⟩ 10
        ⟨"/change-password", "mk_session=A", "zzzz", "x", "x", ""⟩ []
      = (.redirect "/change-password?error=wrong" none, ⟨"abcd", [("A", 2592010)]⟩) ∧
    (⟨"abcd", [("A", 2592010)]⟩ : ServerState) ≠ ⟨"abcd", [("A", 100)]⟩ := by
  decide

/-- C9 amended: on every error branch of an authenticated change-password
POST the stored credential is unchanged and the session table is unchanged
except for the authentication touch that slid the caller's expiry to
now + TTL — no entry is added or removed, no other expiry moves, and the
only response effect is the error redirect. -/
theorem change_password_error_state_effect
    (pwd : String) (s : Table) (now : Time) (hdr a cur pw pw2 act : String)
    (rnd : List Nat) (eA : Time)
    (hck : get_cookie hdr COOKIE_NAME = a)
    (hA : dget s a = some eA) (hApos : eA ≠ 0) (hAlive : ¬ now > eA) :
    (cur ≠ pwd →
      do_POST ⟨pwd, s⟩ now ⟨"/change-password", hdr, cur, pw, pw2, act⟩ rnd
        = (.redirect "/change-password?error=wrong" none,
            ⟨pwd, dset s a (now + SESSION_TTL)⟩)) ∧
    (cur = pwd → pw = "" →
      do_POST ⟨pwd, s⟩ now ⟨"/change-password", hdr, cur, pw, pw2, act⟩ rnd
        = (.redirect "/change-password?error=empty" none,
            ⟨pwd, dset s a (now + SESSION_TTL)⟩)) ∧
    (cur = pwd → pw ≠ "" → pw.length < 4 →
      do_POST ⟨pwd, s⟩ now ⟨"/change-password", hdr, cur, pw, pw2, act⟩ rnd
        = (.redirect "/change-password?error=short" none,
            ⟨pwd, dset s a (now + SESSION_TTL)⟩)) ∧
    (cur = pwd → pw ≠ "" → 4 ≤ pw.length → pw ≠ pw2 →
      do_POST ⟨pwd, s⟩ now ⟨"/change-password", hdr, cur, pw, pw2, act⟩ rnd
        = (.redirect "/change-password?error=mismatch" none,
            ⟨pwd, dset s a (now + SESSION_TTL)⟩)) := by
  have hvs : valid_session s now a = (true, dset s a (now + SESSION_TTL)) := by
    simp [valid_session, hA, hApos, hAlive]
  refine ⟨?_, ?_, ?_, ?_⟩
  · intro h1
    simp [do_POST, is_authed, hck, hvs, change_password_post, h1]
  · intro h1 h2
    simp [do_POST, is_authed, hck, hvs, change_password_post, h1, h2]
  · intro h1 h2 h3
    simp [do_POST, is_authed, hck, hvs, change_password_post, h1, h2, h3]
  · intro h1 h2 h3 h4
    simp [do_POST, is_authed, hck, hvs, change_password_post, h1, h2,
      Nat.not_lt.mpr h3, h4]

/-- C9 witness: the amended theorem applied to a short new password from
the authenticated session B. -/
theorem change_password_error_state_effect_witness :
    get_cookie "mk_session=B" COOKIE_NAME = "B" ∧
    do_POST ⟨"abcd", [("B", 50)]⟩ 20
        ⟨"/change-password", "mk_session=B", "abcd", "xy", "xy", ""⟩ []
      = (.redirect "/change-password?error=short" none,
          ⟨"abcd", dset [("B", 50)] "B" (20 + SESSION_TTL)⟩) :=
  ⟨by decide,
    (change_password_error_state_effect "abcd" [("B", 50)] 20 "mk_session=B" "B"
      "abcd" "xy" "xy" "" [] 50 (by decide) (by decide) (by decide)
      (by decide)).2.2.1 (by decide) (by decide) (by decide)⟩

/-- C10: a request carrying no mk_session cookie is never authenticated in
a reachable state: cookie extraction of an absent header yields the empty
string; every token minted by session creation from 32 random bytes is a
non-empty string of 64 lowercase hex characters; validation treats an
absent entry and a falsy (zero) expiry as invalid; on any table whose keys
are all non-empty — an invariant every session operation preserves —
validating the empty token fails and changes nothing. -/
theorem empty_cookie_never_authenticated (s : Table) (now : Time) (rnd : List Nat)
    (hkeys : ∀ p ∈ s, p.1 ≠ "") (hlen : rnd.length = 32) :
    get_cookie "" COOKIE_NAME = "" ∧
    (token_hex rnd).length = 64 ∧
    token_hex rnd ≠ "" ∧
    (∀ c ∈ (token_hex rnd).data, isHexDigitChar c = true) ∧
    valid_session s now "" = (false, s) ∧
    (∀ t, dget s t = none → (valid_session s now t).1 = false) ∧
    (∀ t e, dget s t = some e → e = 0 → (valid_session s now t).1 = false) ∧
    avoidsToken "" (SessionOp.createOp rnd now) = true ∧
    (∀ ops, (∀ op ∈ ops, avoidsToken "" op = true) →
      (valid_session (runOps s ops) now "").1 = false) := by
  have hlen64 : (token_hex rnd).length = 64 := by
    have h1 : (token_hex rnd).length = (hexChars rnd).length := rfl
    rw [h1, hexChars_length, hlen]
  have hne : token_hex rnd ≠ "" := by
    intro h
    have h2 : (token_hex rnd).length = 0 := by rw [h]; rfl
    rw [hlen64] at h2
    exact absurd h2 (by decide)
  refine ⟨rfl, hlen64, hne, ?_, ?_, ?_, ?_, ?_, ?_⟩
  · intro c hc
    exact hexChars_all_hex rnd c hc
  · exact valid_session_absent now hkeys
  · intro t hd
    simp [valid_session, hd]
  · intro t e hd he
    simp [valid_session, hd, he]
  · simp [avoidsToken, hne]
  · intro ops hops
    rw [valid_session_absent now (not_key_runOps ops s hkeys hops)]

/-- C10 witness: the theorem applied to a one-entry table and 32 zero
bytes. -/
theorem empty_cookie_never_authenticated_witness :
    (∀ p ∈ [(("aa" : Token), (5 : Time))], p.1 ≠ "") ∧
    (List.replicate 32 0).length = 32 ∧
    valid_session [("aa", 5)] 3 "" = (false, [("aa", 5)]) :=
  ⟨by decide, by decide,
    (empty_cookie_never_authenticated [("aa", 5)] 3 (List.replicate 32 0)
      (by decide) (by decide)).2.2.2.2.1⟩

end MediaKeyControl
